import Mathlib

/-
Verification of `wkhtmltopdf_log/models/ir_actions_report.py`, the single
source file of the repository: the method `IrActionsReport._run_wkhtmltopdf`.

The method stages HTML inputs as temporary files, builds a command line,
runs the external `wkhtmltopdf` binary, classifies its exit code, reads the
produced PDF back and removes the temporary files.  We embed it as a pure
function from an input record (which also carries oracles for everything
the outside world decides: the subprocess outcome, the bytes found in the
output file afterwards, and which `os.unlink` calls fail) to an outcome
plus a trace of its externally visible effects (files created with their
contents, the constructed command line, the `os.unlink` calls attempted,
and the unlink failures logged).
-/

namespace WkhtmltopdfLog

/-- Byte strings (Python `bytes`) are modelled as lists of byte values. -/
abbrev Bytes := List Nat

/-- The temporary files `_run_wkhtmltopdf` can create via `tempfile.mkstemp`:
the header file (`report.header.tmp.*.html`), the footer file
(`report.footer.tmp.*.html`), one body file per index
(`report.body.tmp.<i>.*.html`) and the output file (`report.tmp.*.pdf`). -/
inductive TmpPath where
  | headerFile : TmpPath
  | footerFile : TmpPath
  | bodyFile : Nat → TmpPath
  | pdfFile : TmpPath
deriving DecidableEq

/-- Whether a temporary path is one of the per-body HTML files. -/
def TmpPath.isBody : TmpPath → Bool
  | .bodyFile _ => true
  | _ => false

/-- One token of the constructed command line, tagged with its provenance in
line 78 of the source: the binary path from `_get_wkhtmltopdf_bin()`, an
element of `command_args` from `_build_wkhtmltopdf_args`, a literal flag
appended by `_run_wkhtmltopdf` itself into `files_command_args`, or a
temporary-file path. -/
inductive Arg where
  | bin : String → Arg
  | opt : String → Arg
  | flag : String → Arg
  | path : TmpPath → Arg
deriving DecidableEq

/-- Result of `subprocess.Popen(...).communicate()` plus `process.returncode`. -/
structure SubprocessResult where
  returncode : Int
  out : Bytes
  err : Bytes
deriving DecidableEq

/-- The inputs of one invocation of `_run_wkhtmltopdf`, together with the
oracles for everything decided outside the function itself:
`binPath` is the result of `find_in_path("wkhtmltopdf")`, `commandArgs`
the list built by `_build_wkhtmltopdf_args` (both defined elsewhere),
`proc` the subprocess outcome, `pdfFileContent` the bytes found in the
staged output file once the subprocess has completed, and `unlinkFails p`
tells whether `os.unlink` on file `p` raises `OSError`/`IOError`. -/
structure RunInput where
  bodies : List Bytes
  header : Option Bytes
  footer : Option Bytes
  binPath : String
  commandArgs : List String
  proc : SubprocessResult
  pdfFileContent : Bytes
  unlinkFails : TmpPath → Bool

/-- A temporary file created during the run, with the bytes written into it
by `_run_wkhtmltopdf` (the output PDF file is created and closed with no
bytes written by the function itself). -/
structure FileWrite where
  path : TmpPath
  content : Bytes
deriving DecidableEq

/-- The `UserError` exception raised on a fatal exit code, carrying the
formatted message. -/
structure UserError where
  message : Bytes
deriving DecidableEq

/-- The value produced by the call: a normal return of the PDF bytes, or a
raised `UserError`. -/
inductive Outcome where
  | ok : Bytes → Outcome
  | error : UserError → Outcome
deriving DecidableEq

/-- Whether the outcome is a raised `UserError`. -/
def Outcome.isError : Outcome → Bool
  | .ok _ => false
  | .error _ => true

/-- Externally visible effects of one invocation: the temporary files
created (in creation order, with the bytes written), the command line
handed to `subprocess.Popen`, the `os.unlink` calls attempted (in order),
and the files whose failed removal was logged. -/
structure Effects where
  created : List FileWrite
  command : List Arg
  unlinkAttempts : List TmpPath
  unlinkErrorsLogged : List TmpPath
deriving DecidableEq

/-- Outcome and effect trace of one invocation. -/
structure RunResult where
  result : Outcome
  effects : Effects
deriving DecidableEq

/-- Python slice `b[-n:]` on a byte string: its last `n` bytes (all of it
when it is shorter than `n`). -/
def pyTail (b : Bytes) (n : Nat) : Bytes := b.drop (b.length - n)

/-- Bytes of an ASCII string literal (all template text in the source is
ASCII, where this agrees with its UTF-8 encoding). -/
def asciiBytes (s : String) : Bytes := s.data.map Char.toNat

/-- Lowercase hexadecimal digit character for a value below 16. -/
def hexDigit (n : Nat) : Nat :=
  if n < 10 then 48 + n else 87 + n

/-- How one byte is rendered inside the Python 3 repr of a bytes value
whose chosen quote character is `q`: the quote character and the
backslash are backslash-escaped, tab, newline and carriage return become
`\t`, `\n` and `\r`, other bytes outside the printable ASCII range
become `\xhh` with lowercase hex, and printable bytes stand for
themselves. -/
def pyByteEscape (q : Nat) (c : Nat) : Bytes :=
  if c = q ∨ c = 92 then [92, c]
  else if c = 9 then [92, 116]
  else if c = 10 then [92, 110]
  else if c = 13 then [92, 114]
  else if c < 32 ∨ 127 ≤ c then [92, 120, hexDigit (c / 16), hexDigit (c % 16)]
  else [c]

/-- The Python 3 repr of a bytes value, as the ASCII bytes of the
resulting text: the letter `b`, a quote character (a single quote unless
the value contains one and no double quote), the escaped content, and
the closing quote.  This is also what `str()` of a bytes value and hence
a `%s` substitution of one into a `str` template produce. -/
def pyBytesRepr (b : Bytes) : Bytes :=
  let q : Nat := if 39 ∈ b ∧ ¬ (34 ∈ b) then 34 else 39
  [98, q] ++ ((b.map (pyByteEscape q)).flatten) ++ [q]

/-- Text of both message templates up to the first `%s` placeholder. -/
def msgPre : String := "Wkhtmltopdf failed (error code: "

/-- Text of the memory-specific template between its two placeholders. -/
def memMid : String :=
  "). Memory limit too low or maximum file number of subprocess reached. Message : "

/-- Text of the generic template between its two placeholders. -/
def genMid : String := "). Message: "

/-- The memory-specific `UserError` message (line 95 of the source), with
`str(process.returncode)` and `err[-1000:]` substituted for the two
placeholders.  `err` is a bytes value, so the Python 3 `%s` substitution
inserts its repr — the `b` prefix, quotes and escape sequences — not its
raw bytes. -/
def memMessage (rc : Int) (err : Bytes) : Bytes :=
  asciiBytes msgPre ++ asciiBytes (toString rc) ++ asciiBytes memMid
    ++ pyBytesRepr (pyTail err 1000)

/-- The generic `UserError` message (line 98 of the source), with
`str(process.returncode)` and `err[-1000:]` substituted for the two
placeholders.  As in `memMessage`, the bytes slice is inserted as its
Python 3 repr. -/
def genMessage (rc : Int) (err : Bytes) : Bytes :=
  asciiBytes msgPre ++ asciiBytes (toString rc) ++ asciiBytes genMid
    ++ pyBytesRepr (pyTail err 1000)

/-- The `UserError` message raised for a fatal return code `rc` (lines
94 to 99 of the source): memory-specific exactly for `rc = -11`. -/
def fatalMessage (rc : Int) (err : Bytes) : Bytes :=
  if rc = -11 then memMessage rc err else genMessage rc err

/-- Python truthiness of the `header` / `footer` argument (`None` or a byte
string): `if header:` is taken exactly when the value is present and
non-empty. -/
def truthyBytes : Option Bytes → Bool
  | none => false
  | some b => !b.isEmpty

/-- What staging one optional input (header or footer, lines 51 to 62)
contributes: its `files_command_args` tokens, its `temporary_files`
entries, and the file writes performed. -/
structure Staged where
  fcArgs : List Arg
  tmpFiles : List TmpPath
  writes : List FileWrite
deriving DecidableEq

/-- Staging of the optional header or footer: when the value is truthy, a
temporary file is created holding its bytes, recorded in
`temporary_files`, and the flag plus the file path are appended to
`files_command_args`; otherwise nothing happens. -/
def stageOptional (p : TmpPath) (flagName : String) : Option Bytes → Staged
  | none => ⟨[], [], []⟩
  | some b =>
      if b.isEmpty then ⟨[], [], []⟩
      else ⟨[Arg.flag flagName, Arg.path p], [p], [⟨p, b⟩]⟩

/-- The per-body temporary files written in the loop of lines 64 to 71:
the file at index `i` holds the bytes of `bodies[i]`. -/
def bodyWrites (bodies : List Bytes) : List FileWrite :=
  bodies.enum.map fun ib => ⟨TmpPath.bodyFile ib.1, ib.2⟩

/-- The `paths` list of body file paths, in the order of `bodies`. -/
def bodyPaths (bodies : List Bytes) : List TmpPath :=
  bodies.enum.map fun ib => TmpPath.bodyFile ib.1

/-- The `temporary_files` list as the source builds it: header file (when
staged), footer file (when staged), the body files in order, then the
output PDF file. -/
def temporaryFiles (inp : RunInput) : List TmpPath :=
  (stageOptional .headerFile "--header-html" inp.header).tmpFiles
    ++ (stageOptional .footerFile "--footer-html" inp.footer).tmpFiles
    ++ bodyPaths inp.bodies
    ++ [TmpPath.pdfFile]

/-- All temporary files created by the invocation, in creation order, with
the bytes written into each (the output PDF file is created empty). -/
def createdFiles (inp : RunInput) : List FileWrite :=
  (stageOptional .headerFile "--header-html" inp.header).writes
    ++ (stageOptional .footerFile "--footer-html" inp.footer).writes
    ++ bodyWrites inp.bodies
    ++ [⟨TmpPath.pdfFile, []⟩]

/-- The command line of line 78 of the source:
`[_get_wkhtmltopdf_bin()] + command_args + files_command_args + paths +
[pdf_report_path]`. -/
def commandLine (inp : RunInput) : List Arg :=
  [Arg.bin inp.binPath] ++ inp.commandArgs.map Arg.opt
    ++ (stageOptional .headerFile "--header-html" inp.header).fcArgs
    ++ (stageOptional .footerFile "--footer-html" inp.footer).fcArgs
    ++ (bodyPaths inp.bodies).map Arg.path
    ++ [Arg.path TmpPath.pdfFile]

/-- The embedding of `_run_wkhtmltopdf` (lines 20 to 116 of the source).
After staging the temporary files and invoking the subprocess, a return
code outside `[0, 1]` raises `UserError` with `fatalMessage`; the bare
`except: raise` re-raises it, so the function exits before the cleanup
loop, and no `os.unlink` is attempted.  Otherwise the output file is read
back, every entry of `temporary_files` is unlinked in order — each failed
removal being caught and logged, never propagated — and the PDF bytes are
returned. -/
def runWkhtmltopdf (inp : RunInput) : RunResult :=
  let rc := inp.proc.returncode
  if rc ∉ ([0, 1] : List Int) then
    { result := Outcome.error ⟨fatalMessage rc inp.proc.err⟩
      effects :=
        { created := createdFiles inp
          command := commandLine inp
          unlinkAttempts := []
          unlinkErrorsLogged := [] } }
  else
    { result := Outcome.ok inp.pdfFileContent
      effects :=
        { created := createdFiles inp
          command := commandLine inp
          unlinkAttempts := temporaryFiles inp
          unlinkErrorsLogged := (temporaryFiles inp).filter fun p => inp.unlinkFails p } }

/-- Concrete invocation on the successful path: two bodies, header and
footer both present, return code 0, no unlink failure. -/
def okInput : RunInput :=
  { bodies := [[60, 112, 62], [104, 105]]
    header := some [104]
    footer := some [102]
    binPath := "wkhtmltopdf"
    commandArgs := ["--quiet"]
    proc := { returncode := 0, out := [], err := [] }
    pdfFileContent := [37, 80, 68, 70]
    unlinkFails := fun _ => false }

/-- Concrete invocation on the fatal path: one body, no header or footer,
return code 2, stderr bytes of the text `err`. -/
def cexInput : RunInput :=
  { bodies := [[104, 105]]
    header := none
    footer := none
    binPath := "wkhtmltopdf"
    commandArgs := ["--quiet"]
    proc := { returncode := 2, out := [], err := [101, 114, 114] }
    pdfFileContent := []
    unlinkFails := fun _ => false }

/-- Concrete invocation hitting the memory-specific branch: return
code -11. -/
def memInput : RunInput :=
  { cexInput with proc := { returncode := -11, out := [], err := [101] } }

/-- Concrete invocation on the tolerated-warning path: return code 1 with
non-empty stderr. -/
def warnInput : RunInput :=
  { okInput with proc := { returncode := 1, out := [], err := [119] } }

/-- Concrete successful invocation in which every `os.unlink` call fails. -/
def failInput : RunInput :=
  { okInput with unlinkFails := fun _ => true }

/-- Concrete fatal invocation whose stderr contains a newline: return
code 2, stderr bytes `[101, 10]` (the letter `e` followed by a line
feed). -/
def nlInput : RunInput :=
  { cexInput with proc := { returncode := 2, out := [], err := [101, 10] } }

lemma stage_writes_map_path (p : TmpPath) (f : String) (h : Option Bytes) :
    ((stageOptional p f h).writes.map FileWrite.path) = (stageOptional p f h).tmpFiles := by
  cases h with
  | none => rfl
  | some b =>
      by_cases hb : b.isEmpty <;> simp [stageOptional, hb]

lemma bodyWrites_map_path (l : List Bytes) :
    ((bodyWrites l).map FileWrite.path) = bodyPaths l := by
  simp [bodyWrites, bodyPaths, List.map_map, Function.comp]

lemma createdFiles_map_path (inp : RunInput) :
    ((createdFiles inp).map FileWrite.path) = temporaryFiles inp := by
  simp [createdFiles, temporaryFiles, stage_writes_map_path, bodyWrites_map_path]

lemma bodyPaths_eq_range (l : List Bytes) :
    bodyPaths l = (List.range l.length).map TmpPath.bodyFile := by
  rw [← List.enum_map_fst l, List.map_map]
  rfl

lemma mem_stage_fcArgs (p : TmpPath) (f : String) (h : Option Bytes) (a : Arg) :
    a ∈ (stageOptional p f h).fcArgs ↔
      (truthyBytes h = true ∧ (a = Arg.flag f ∨ a = Arg.path p)) := by
  cases h with
  | none => simp [stageOptional, truthyBytes]
  | some b =>
      by_cases hb : b.isEmpty <;> simp [stageOptional, truthyBytes, hb]

lemma stage_tmpFiles (p : TmpPath) (f : String) (h : Option Bytes) :
    (stageOptional p f h).tmpFiles = if truthyBytes h then [p] else [] := by
  cases h with
  | none => rfl
  | some b => by_cases hb : b.isEmpty <;> simp [stageOptional, truthyBytes, hb]

lemma run_of_fatal (inp : RunInput) (h : inp.proc.returncode ∉ ([0, 1] : List Int)) :
    runWkhtmltopdf inp =
      { result := Outcome.error ⟨fatalMessage inp.proc.returncode inp.proc.err⟩
        effects :=
          { created := createdFiles inp
            command := commandLine inp
            unlinkAttempts := []
            unlinkErrorsLogged := [] } } := by
  simp [runWkhtmltopdf, h]

lemma run_of_ok (inp : RunInput) (h : inp.proc.returncode ∈ ([0, 1] : List Int)) :
    runWkhtmltopdf inp =
      { result := Outcome.ok inp.pdfFileContent
        effects :=
          { created := createdFiles inp
            command := commandLine inp
            unlinkAttempts := temporaryFiles inp
            unlinkErrorsLogged := (temporaryFiles inp).filter fun p => inp.unlinkFails p } } := by
  simp [runWkhtmltopdf, h]

lemma run_created (inp : RunInput) :
    (runWkhtmltopdf inp).effects.created = createdFiles inp := by
  by_cases h : inp.proc.returncode ∈ ([0, 1] : List Int)
  · rw [run_of_ok inp h]
  · rw [run_of_fatal inp h]

lemma run_command (inp : RunInput) :
    (runWkhtmltopdf inp).effects.command = commandLine inp := by
  by_cases h : inp.proc.returncode ∈ ([0, 1] : List Int)
  · rw [run_of_ok inp h]
  · rw [run_of_fatal inp h]

lemma flag_mem_commandLine (inp : RunInput) (s : String) :
    Arg.flag s ∈ commandLine inp ↔
      ((truthyBytes inp.header = true ∧ s = "--header-html") ∨
       (truthyBytes inp.footer = true ∧ s = "--footer-html")) := by
  simp [commandLine, List.mem_append, mem_stage_fcArgs, List.mem_map, bodyPaths]

lemma headerFile_mem_temporaryFiles (inp : RunInput) :
    TmpPath.headerFile ∈ temporaryFiles inp ↔ truthyBytes inp.header = true := by
  by_cases hh : truthyBytes inp.header <;> by_cases hf : truthyBytes inp.footer <;>
    simp [temporaryFiles, stage_tmpFiles, hh, hf, bodyPaths]

lemma footerFile_mem_temporaryFiles (inp : RunInput) :
    TmpPath.footerFile ∈ temporaryFiles inp ↔ truthyBytes inp.footer = true := by
  by_cases hh : truthyBytes inp.header <;> by_cases hf : truthyBytes inp.footer <;>
    simp [temporaryFiles, stage_tmpFiles, hh, hf, bodyPaths]

lemma error_inversion (inp : RunInput) (e : UserError)
    (h : (runWkhtmltopdf inp).result = Outcome.error e) :
    e.message = fatalMessage inp.proc.returncode inp.proc.err ∧
      inp.proc.returncode ∉ ([0, 1] : List Int) := by
  by_cases hm : inp.proc.returncode ∈ ([0, 1] : List Int)
  · rw [run_of_ok inp hm] at h
    exact absurd h (by simp)
  · rw [run_of_fatal inp hm] at h
    simp at h
    exact ⟨by rw [← h], hm⟩

lemma mem_ne_gen (rc : Int) (err : Bytes) : memMessage rc err ≠ genMessage rc err := by
  intro hEq
  have hlen := congrArg List.length hEq
  have h1 : (asciiBytes memMid).length = 80 := by decide
  have h2 : (asciiBytes genMid).length = 12 := by decide
  simp [memMessage, genMessage, List.length_append, h1, h2] at hlen

lemma stage_writes_filter_isBody (p : TmpPath) (f : String) (h : Option Bytes)
    (hp : TmpPath.isBody p = false) :
    ((stageOptional p f h).writes.filter fun w => TmpPath.isBody w.path) = [] := by
  cases h with
  | none => rfl
  | some b => by_cases hb : b.isEmpty <;> simp [stageOptional, hb, hp]

lemma bodyWrites_filter_isBody (l : List Bytes) :
    ((bodyWrites l).filter fun w => TmpPath.isBody w.path) = bodyWrites l := by
  apply List.filter_eq_self.mpr
  intro a ha
  obtain ⟨ib, -, rfl⟩ := List.mem_map.mp ha
  rfl

lemma createdFiles_filter_isBody (inp : RunInput) :
    ((createdFiles inp).filter fun w => TmpPath.isBody w.path) = bodyWrites inp.bodies := by
  have h1 := stage_writes_filter_isBody TmpPath.headerFile "--header-html" inp.header rfl
  have h2 := stage_writes_filter_isBody TmpPath.footerFile "--footer-html" inp.footer rfl
  simp only [createdFiles, List.filter_append, h1, h2, bodyWrites_filter_isBody,
    List.nil_append, List.append_nil]
  simp [List.filter, TmpPath.isBody]

/-- C1, as stated, fails on the code: at a fatal return code (here 2) the
run creates temporary files (among them the body file and the output PDF
file), raises `UserError`, and attempts no `os.unlink` at all — the
cleanup loop of lines 110 to 114 is never reached, because the bare
`except: raise` of lines 103 to 104 re-raises the exception before it. -/
theorem C1_counterexample :
    Outcome.isError (runWkhtmltopdf cexInput).result = true ∧
    TmpPath.bodyFile 0 ∈ ((runWkhtmltopdf cexInput).effects.created.map FileWrite.path) ∧
    TmpPath.pdfFile ∈ ((runWkhtmltopdf cexInput).effects.created.map FileWrite.path) ∧
    (runWkhtmltopdf cexInput).effects.unlinkAttempts = [] := by decide

/-- C1 (amended): deletion of the temporary files is scoped to the
non-raising exit path only.  Every created temporary file appears in the
`temporary_files` list, and when the return code is 0 or 1 each of them
is passed to `os.unlink`; when the return code is fatal the function
exits by raising `UserError` before the cleanup loop, so no deletion is
attempted. -/
theorem C1_theorem (inp : RunInput) :
    ((runWkhtmltopdf inp).effects.created.map FileWrite.path = temporaryFiles inp) ∧
    (inp.proc.returncode ∈ ([0, 1] : List Int) →
      (runWkhtmltopdf inp).effects.unlinkAttempts = temporaryFiles inp) ∧
    (inp.proc.returncode ∉ ([0, 1] : List Int) →
      (runWkhtmltopdf inp).effects.unlinkAttempts = []) := by
  refine ⟨?_, ?_, ?_⟩
  · rw [run_created inp]
    exact createdFiles_map_path inp
  · intro h
    rw [run_of_ok inp h]
  · intro h
    rw [run_of_fatal inp h]

/-- Witness for C1 (amended) at the concrete successful input: every
temporary file of the run is passed to `os.unlink`. -/
theorem C1_witness :
    (runWkhtmltopdf okInput).effects.unlinkAttempts = temporaryFiles okInput :=
  (C1_theorem okInput).2.1 (by decide)

/-- C2: `_run_wkhtmltopdf` raises `UserError` exactly when the subprocess
return code is neither 0 nor 1, and for return codes 0 and 1 it returns
the PDF content. -/
theorem C2_theorem (inp : RunInput) :
    (Outcome.isError (runWkhtmltopdf inp).result = true ↔
      inp.proc.returncode ∉ ([0, 1] : List Int)) ∧
    (inp.proc.returncode ∈ ([0, 1] : List Int) →
      (runWkhtmltopdf inp).result = Outcome.ok inp.pdfFileContent) := by
  by_cases h : inp.proc.returncode ∈ ([0, 1] : List Int)
  · rw [run_of_ok inp h]
    simp [Outcome.isError, h]
  · rw [run_of_fatal inp h]
    simp [Outcome.isError, h]

/-- Witness for C2 at the concrete successful input: no exception, the PDF
bytes are returned. -/
theorem C2_witness :
    (runWkhtmltopdf okInput).result = Outcome.ok okInput.pdfFileContent :=
  (C2_theorem okInput).2 (by decide)

/-- C3, as stated, fails on the code: the `%s` substitution of the bytes
slice `err[-1000:]` into the `str` template inserts its Python 3 repr,
whose escape sequences destroy verbatim containment.  At the concrete
fatal input with stderr `[101, 10]`, the raw last-1000-byte tail
contains the newline byte 10, but the raised message contains no byte 10
at all (the repr renders it as the two characters backslash and `n`), so
no contiguous occurrence of the raw tail — nor even of its bytes — is in
the message. -/
theorem C3_counterexample :
    (runWkhtmltopdf nlInput).result = Outcome.error ⟨genMessage 2 [101, 10]⟩ ∧
    (10 ∈ pyTail [101, 10] 1000) ∧
    (10 ∉ genMessage 2 [101, 10]) := by decide

/-- C3 (amended): whenever a `UserError` is raised, its message ends with
— hence contains verbatim — the Python 3 repr of the last 1000 bytes of
the stderr of the subprocess (the `b` prefix, quotes and escape
sequences included), `err[-1000:]` being sliced before the repr is
taken. -/
theorem C3_theorem (inp : RunInput) (e : UserError)
    (h : (runWkhtmltopdf inp).result = Outcome.error e) :
    ∃ pre, e.message = pre ++ pyBytesRepr (pyTail inp.proc.err 1000) := by
  obtain ⟨hmsg, -⟩ := error_inversion inp e h
  rw [hmsg]
  by_cases hc : inp.proc.returncode = -11
  · refine ⟨asciiBytes msgPre ++ asciiBytes (toString inp.proc.returncode) ++ asciiBytes memMid, ?_⟩
    simp [fatalMessage, hc, memMessage, List.append_assoc]
  · refine ⟨asciiBytes msgPre ++ asciiBytes (toString inp.proc.returncode) ++ asciiBytes genMid, ?_⟩
    simp [fatalMessage, hc, genMessage, List.append_assoc]

/-- Witness for C3 (amended) at the concrete fatal input with return
code 2 and stderr `[101, 10]`. -/
theorem C3_witness :
    ∃ pre, (UserError.mk (genMessage 2 [101, 10])).message =
      pre ++ pyBytesRepr (pyTail [101, 10] 1000) :=
  C3_theorem nlInput ⟨genMessage 2 [101, 10]⟩ rfl

/-- C4: among fatal return codes, the raised `UserError` carries the
memory-specific message text exactly when the return code is -11, and
the generic message text for every other fatal return code.  The two
texts differ, so the branch is a real distinction. -/
theorem C4_theorem (inp : RunInput) (e : UserError)
    (h : (runWkhtmltopdf inp).result = Outcome.error e) :
    (e.message = memMessage inp.proc.returncode inp.proc.err ↔
      inp.proc.returncode = -11) ∧
    (inp.proc.returncode ≠ -11 →
      e.message = genMessage inp.proc.returncode inp.proc.err) := by
  obtain ⟨hmsg, -⟩ := error_inversion inp e h
  by_cases hc : inp.proc.returncode = -11
  · have hm : e.message = memMessage inp.proc.returncode inp.proc.err := by
      rw [hmsg]
      simp [fatalMessage, hc]
    exact ⟨⟨fun _ => hc, fun _ => hm⟩, fun hne => absurd hc hne⟩
  · have hg : e.message = genMessage inp.proc.returncode inp.proc.err := by
      rw [hmsg]
      simp [fatalMessage, hc]
    exact ⟨⟨fun hmem => absurd (hmem.symm.trans hg) (mem_ne_gen _ _),
      fun hc' => absurd hc' hc⟩, fun _ => hg⟩

/-- Witness for C4 at the concrete input with return code -11: the raised
message is the memory-specific one. -/
theorem C4_witness :
    ((UserError.mk (memMessage (-11) [101])).message = memMessage (-11) [101] ↔
      ((-11 : Int) = -11)) ∧
    (((-11 : Int) ≠ -11) →
      (UserError.mk (memMessage (-11) [101])).message = genMessage (-11) [101]) :=
  C4_theorem memInput ⟨memMessage (-11) [101]⟩ rfl

/-- C5: on the non-raising path, a temporary file whose `os.unlink` fails
with `OSError`/`IOError` is logged in the error log, and the failure is
not propagated: the function still returns the PDF content unchanged. -/
theorem C5_theorem (inp : RunInput) (p : TmpPath)
    (hrc : inp.proc.returncode ∈ ([0, 1] : List Int))
    (hp : p ∈ temporaryFiles inp)
    (hf : inp.unlinkFails p = true) :
    p ∈ (runWkhtmltopdf inp).effects.unlinkErrorsLogged ∧
    (runWkhtmltopdf inp).result = Outcome.ok inp.pdfFileContent := by
  rw [run_of_ok inp hrc]
  exact ⟨List.mem_filter.mpr ⟨hp, hf⟩, rfl⟩

/-- Witness for C5 at the concrete input where every unlink fails: the
output PDF file removal failure is logged and the PDF bytes are still
returned. -/
theorem C5_witness :
    TmpPath.pdfFile ∈ (runWkhtmltopdf failInput).effects.unlinkErrorsLogged ∧
    (runWkhtmltopdf failInput).result = Outcome.ok failInput.pdfFileContent :=
  C5_theorem failInput TmpPath.pdfFile (by decide) (by decide) rfl

/-- C6: on the non-raising paths (return code 0 or 1), the value returned
is exactly the byte content of the staged output PDF file as found after
the subprocess completed. -/
theorem C6_theorem (inp : RunInput)
    (hrc : inp.proc.returncode ∈ ([0, 1] : List Int)) :
    (runWkhtmltopdf inp).result = Outcome.ok inp.pdfFileContent := by
  rw [run_of_ok inp hrc]

/-- Witness for C6 at the concrete warning input (return code 1). -/
theorem C6_witness :
    (runWkhtmltopdf warnInput).result = Outcome.ok warnInput.pdfFileContent :=
  C6_theorem warnInput (by decide)

/-- C7: exactly one temporary HTML file is created per element of `bodies`
— the file at index `i` holding the bytes of `bodies[i]` — and the
command line is the binary path, the paperformat and layout arguments,
the header and footer flag arguments, the body file paths in the order
of `bodies`, and the output PDF path last. -/
theorem C7_theorem (inp : RunInput) :
    ((runWkhtmltopdf inp).effects.created.filter fun w => TmpPath.isBody w.path) =
      inp.bodies.enum.map (fun ib => FileWrite.mk (TmpPath.bodyFile ib.1) ib.2) ∧
    (runWkhtmltopdf inp).effects.command =
      [Arg.bin inp.binPath] ++ inp.commandArgs.map Arg.opt
        ++ (stageOptional TmpPath.headerFile "--header-html" inp.header).fcArgs
        ++ (stageOptional TmpPath.footerFile "--footer-html" inp.footer).fcArgs
        ++ ((List.range inp.bodies.length).map fun i => Arg.path (TmpPath.bodyFile i))
        ++ [Arg.path TmpPath.pdfFile] := by
  constructor
  · rw [run_created inp, createdFiles_filter_isBody inp]
    rfl
  · rw [run_command inp]
    simp [commandLine, bodyPaths_eq_range, List.map_map, Function.comp, List.append_assoc]

/-- C8: a header (resp. footer) temporary file is created and the
`--header-html` (resp. `--footer-html`) flag appears in the command line
if and only if the header (resp. footer) argument is truthy. -/
theorem C8_theorem (inp : RunInput) :
    (Arg.flag "--header-html" ∈ (runWkhtmltopdf inp).effects.command ↔
      truthyBytes inp.header = true) ∧
    (TmpPath.headerFile ∈ ((runWkhtmltopdf inp).effects.created.map FileWrite.path) ↔
      truthyBytes inp.header = true) ∧
    (Arg.flag "--footer-html" ∈ (runWkhtmltopdf inp).effects.command ↔
      truthyBytes inp.footer = true) ∧
    (TmpPath.footerFile ∈ ((runWkhtmltopdf inp).effects.created.map FileWrite.path) ↔
      truthyBytes inp.footer = true) := by
  rw [run_command inp, run_created inp, createdFiles_map_path inp]
  refine ⟨?_, headerFile_mem_temporaryFiles inp, ?_, footerFile_mem_temporaryFiles inp⟩
  · rw [flag_mem_commandLine inp]
    simp
  · rw [flag_mem_commandLine inp]
    simp

/-- C9: an empty header or footer byte string behaves exactly like `None`
(truthiness, not comparison with `None`): the whole run is unchanged, no
header or footer temporary file is created and no `--header-html` or
`--footer-html` flag is added. -/
theorem C9_theorem (inp : RunInput) :
    runWkhtmltopdf { inp with header := some [] } =
      runWkhtmltopdf { inp with header := none } ∧
    runWkhtmltopdf { inp with footer := some [] } =
      runWkhtmltopdf { inp with footer := none } ∧
    TmpPath.headerFile ∉
      ((runWkhtmltopdf { inp with header := some [] }).effects.created.map FileWrite.path) ∧
    Arg.flag "--header-html" ∉
      (runWkhtmltopdf { inp with header := some [] }).effects.command ∧
    TmpPath.footerFile ∉
      ((runWkhtmltopdf { inp with footer := some [] }).effects.created.map FileWrite.path) ∧
    Arg.flag "--footer-html" ∉
      (runWkhtmltopdf { inp with footer := some [] }).effects.command := by
  refine ⟨rfl, rfl, ?_, ?_, ?_, ?_⟩
  · rw [run_created _, createdFiles_map_path _, headerFile_mem_temporaryFiles _]
    simp [truthyBytes]
  · rw [run_command _, flag_mem_commandLine _]
    simp [truthyBytes]
  · rw [run_created _, createdFiles_map_path _, footerFile_mem_temporaryFiles _]
    simp [truthyBytes]
  · rw [run_command _, flag_mem_commandLine _]
    simp [truthyBytes]

/-- C10: the list of `os.unlink` calls attempted does not depend on which
removals fail — a failed unlink never stops the remaining attempts — and
whenever the cleanup loop runs (return code 0 or 1) every created file
is attempted, in creation order. -/
theorem C10_theorem (inp : RunInput) (g : TmpPath → Bool) :
    (runWkhtmltopdf { inp with unlinkFails := g }).effects.unlinkAttempts =
      (runWkhtmltopdf inp).effects.unlinkAttempts ∧
    (inp.proc.returncode ∈ ([0, 1] : List Int) →
      (runWkhtmltopdf inp).effects.unlinkAttempts =
        (runWkhtmltopdf inp).effects.created.map FileWrite.path) := by
  constructor
  · by_cases h : inp.proc.returncode ∈ ([0, 1] : List Int)
    · rw [run_of_ok inp h, run_of_ok { inp with unlinkFails := g } h]
      rfl
    · rw [run_of_fatal inp h, run_of_fatal { inp with unlinkFails := g } h]
  · intro h
    rw [run_of_ok inp h, createdFiles_map_path inp]

/-- Witness for C10 at the concrete input where every unlink fails: all
created files are still attempted, in creation order. -/
theorem C10_witness :
    (runWkhtmltopdf failInput).effects.unlinkAttempts =
      (runWkhtmltopdf failInput).effects.created.map FileWrite.path :=
  (C10_theorem failInput fun _ => false).2 (by decide)

end WkhtmltopdfLog
